import Mathlib

/-!
# Verification of the stock-ml daily model lifecycle

Shallow embedding of the core pipeline of the `stock-ml` repository:

* `src/pipeline/build_features.py` — the Feature Engine (`build_features`),
* `src/pipeline/train_model.py`    — the Trainer (`make_labels`, the
  `TimeSeriesSplit` cross-validation loop and the minimum-data guard),
* `src/pipeline/predict.py` / `src/db/models.py` — the Predictor's stored
  prediction records (`PredictionsDAO.insert_predictions`),
* `src/pipeline/evaluate_and_explain.py` — the Evaluator,
* `src/db/models.py` — the MongoDB data-access layer: keyed `ReplaceOne`
  upserts (`PricesDAO.insert_prices`, `PredictionsDAO.insert_predictions`,
  `EvaluationsDAO.insert_evaluations`) and the model store
  (`ModelsDAO.save_model`).

Modelling conventions:

* Dates are day numbers (`ℕ`); tickers are identifiers (`ℕ`) ordered the way
  pandas orders the ticker strings.
* Numeric cells are `ℚ`; a pandas `NaN` is `none` in `Option ℚ`.  pandas
  `rolling(w)` uses `min_periods = w`, so a rolling statistic is `none`
  unless the window is complete and entirely non-NaN.
* A MongoDB collection is a `List` of records; `ReplaceOne(filter, doc,
  upsert=True)` replaces the first record matching the filter, else appends.
* Calls into external libraries (`np.log`, the square root inside pandas'
  `std`, the `ta` indicators and the LightGBM fit) are fields of an
  `ExtLib` parameter: all repository logic is concrete, only the external
  numerics are abstract.  An indicator call that raises (the `try/except`
  blocks of `build_features`) is modelled by the library function returning
  `none` for the whole column.
-/

namespace StockML

/-- External numeric/library primitives used by the pipeline.  `rsi`, `macd`
and `adx` return per-row columns aligned with the input series (`none`
cells are NaN warm-ups); a `none` result for `macd`/`adx` models the call
raising an exception.  `foldMae` is the fit-and-score of one CV fold and
`fitBlob` the serialized final LightGBM model. -/
structure ExtLib where
  ln : ℚ → ℚ
  sqrt : ℚ → ℚ
  rsi : List ℚ → ℕ → List (Option ℚ)
  macd : List ℚ → Option (List (Option ℚ))
  adx : List ℚ → List ℚ → List ℚ → ℕ → Option (List (Option ℚ))
  foldMae : List ℚ → List ℚ → ℚ
  fitBlob : List ℚ → ℕ

/-- One OHLCV price bar (`PriceBar` of the spec; a row of the prices
DataFrame).  The unused `open` column is omitted (`open` is reserved). -/
structure PriceBar where
  ticker : ℕ
  date : ℕ
  high : ℚ
  low : ℚ
  close : ℚ
  volume : ℚ
  deriving DecidableEq, Repr

/-- A stored price record: the bar plus the metadata fields added by
`PricesDAO.insert_prices`. -/
structure PriceRec where
  ticker : ℕ
  date : ℕ
  high : ℚ
  low : ℚ
  close : ℚ
  volume : ℚ
  data_source : String
  dep_type : String
  deriving DecidableEq, Repr

/-- One news row: only `date` and `sentiment` are read by `build_features`. -/
structure NewsItem where
  date : ℕ
  sentiment : ℚ
  deriving DecidableEq, Repr

/-- A per-ticker feature row before the sentiment merge (the columns of the
per-ticker DataFrame `df` inside the `build_features` loop). -/
structure PreRow where
  ticker : ℕ
  date : ℕ
  high : ℚ
  low : ℚ
  close : ℚ
  volume : ℚ
  ret1 : Option ℚ
  ret5 : Option ℚ
  vol20 : Option ℚ
  rsi14 : Option ℚ
  macd : Option ℚ
  adx14 : Option ℚ
  z_close_20 : Option ℚ
  deriving DecidableEq, Repr

/-- A finished feature row (after the left merge with the market sentiment
aggregate and the `fillna` of the three sentiment columns). -/
structure FeatRow where
  ticker : ℕ
  date : ℕ
  high : ℚ
  low : ℚ
  close : ℚ
  volume : ℚ
  ret1 : Option ℚ
  ret5 : Option ℚ
  vol20 : Option ℚ
  rsi14 : Option ℚ
  macd : Option ℚ
  adx14 : Option ℚ
  z_close_20 : Option ℚ
  market_news_sent_mean : ℚ
  market_news_sent_max : ℚ
  market_news_count : ℚ
  deriving DecidableEq, Repr

/-! ## Generic list machinery: stable sort by a key and Mongo upserts -/

/-- Insert `a` into `l` keeping elements `b` with `le b a` in front
(insertion step of a stable sort, matching pandas `sort_values`). -/
def insOn (le : α → α → Bool) (a : α) : List α → List α
  | [] => [a]
  | b :: bs => if le b a then b :: insOn le a bs else a :: b :: bs

/-- Stable insertion sort by a boolean `le` (models `sort_values`). -/
def sortOn (le : α → α → Bool) : List α → List α
  | [] => []
  | a :: as => insOn le a (sortOn le as)

/-- `pymongo.ReplaceOne(filter, r, upsert=True)`: replace the first record
matching the filter `p`, else append `r`. -/
def replaceOneBy (p : α → Bool) (r : α) : List α → List α
  | [] => [r]
  | x :: xs => if p x then r :: xs else x :: replaceOneBy p r xs

/-! ## Indicator library (section 4.1 / lines 31–57 of `build_features.py`) -/

/-- Arithmetic mean of a list of rationals (pandas `mean`). -/
def meanQ (l : List ℚ) : ℚ := l.sum / l.length

/-- Sample variance with `ddof = 1` (pandas `std` squares to this). -/
def sampleVar (l : List ℚ) : ℚ :=
  (l.map (fun x => (x - meanQ l) ^ 2)).sum / (l.length - 1)

/-- The trailing window of width `w` ending at position `i`; `none` when the
window is incomplete or contains a NaN (`min_periods = w`). -/
def rollWindow (w i : ℕ) (xs : List (Option ℚ)) : Option (List ℚ) :=
  if i + 1 < w then none
  else ((xs.take (i + 1)).drop (i + 1 - w)).mapM id

/-- `series.rolling(w).mean()` over an Option-valued column. -/
def rollingMeanO (w : ℕ) (xs : List (Option ℚ)) : List (Option ℚ) :=
  (List.range xs.length).map (fun i => (rollWindow w i xs).map meanQ)

/-- `series.rolling(w).std()` over an Option-valued column; the square root
comes from the external numeric library. -/
def rollingStdO (lib : ExtLib) (w : ℕ) (xs : List (Option ℚ)) : List (Option ℚ) :=
  (List.range xs.length).map (fun i => (rollWindow w i xs).map (fun l => lib.sqrt (sampleVar l)))

/-- `series.diff(k)`: `xs[i] - xs[i-k]`, NaN for `i < k`. -/
def diffO (k : ℕ) (xs : List ℚ) : List (Option ℚ) :=
  (List.range xs.length).map (fun i =>
    if k ≤ i then some (xs.getD i 0 - xs.getD (i - k) 0) else none)

/-- Division as pandas produces it here: a zero denominator yields the NaN
sentinel (when `rolling_std_20 = 0` every window value equals the mean, so
the numerator is `0` and IEEE `0/0` is NaN); `none` never raises. -/
def divNaN (x y : ℚ) : Option ℚ := if y = 0 then none else some (x / y)

/-- Line 57 of `build_features.py`:
`(close - close.rolling(20).mean()) / close.rolling(20).std()`. -/
def zClose20 (lib : ExtLib) (closes : List ℚ) : List (Option ℚ) :=
  let m := rollingMeanO 20 (closes.map some)
  let s := rollingStdO lib 20 (closes.map some)
  (List.range closes.length).map (fun i =>
    match m.getD i none, s.getD i none with
    | some mv, some sv => divNaN (closes.getD i 0 - mv) sv
    | _, _ => none)

/-! ## Feature Engine (`build_features`, lines 14–72 of `build_features.py`) -/

/-- Dummy bar used only as the `getD` default behind an in-bounds index. -/
def dummyBar : PriceBar :=
  { ticker := 0, date := 0, high := 0, low := 0, close := 0, volume := 0 }

/-- The market-wide sentiment aggregate for a date (the row of
`news.groupby(["date"]).agg(mean, max, count)` when any news exists). -/
def sentStats (news : List NewsItem) (d : ℕ) : Option (ℚ × ℚ × ℕ) :=
  match (news.filter (fun x => x.date == d)).map (fun x => x.sentiment) with
  | [] => none
  | a :: rest => some (meanQ (a :: rest), rest.foldl max a, (a :: rest).length)

/-- The left merge on `date` with the sentiment aggregate followed by
`fillna({mean: 0, max: 0, count: 0})`. -/
def addSent (news : List NewsItem) (r : PreRow) : FeatRow :=
  let s := (sentStats news r.date).getD (0, 0, 0)
  { ticker := r.ticker, date := r.date, high := r.high, low := r.low,
    close := r.close, volume := r.volume, ret1 := r.ret1, ret5 := r.ret5,
    vol20 := r.vol20, rsi14 := r.rsi14, macd := r.macd, adx14 := r.adx14,
    z_close_20 := r.z_close_20,
    market_news_sent_mean := s.1, market_news_sent_max := s.2.1,
    market_news_count := (s.2.2 : ℚ) }

/-- The body of the per-ticker loop of `build_features` for one ticker whose
bars (already sorted by date) passed the 15-row guard: lines 31–58. -/
def tickerBlock (lib : ExtLib) (bars : List PriceBar) : List PreRow :=
  let n := bars.length
  let closes := bars.map (fun b => b.close)
  let logs := closes.map lib.ln
  let r1 := diffO 1 logs
  let r5 := diffO 5 logs
  let v20 := rollingStdO lib 20 r1
  let wRsi := min 14 (n - 1)
  let wAdx := min 14 (n - 1)
  let rsiCol := if 0 < wRsi then lib.rsi closes wRsi else List.replicate n (some 50)
  let macdCol :=
    match lib.macd closes with
    | some c => c
    | none => List.replicate n (some 0)
  let adxCol :=
    if 0 < wAdx ∧ wAdx ≤ n then
      match lib.adx (bars.map (fun b => b.high)) (bars.map (fun b => b.low)) closes wAdx with
      | some c => c
      | none => List.replicate n (some 25)
    else List.replicate n (some 25)
  let zCol := zClose20 lib closes
  (List.range n).map (fun i =>
    let b := bars.getD i dummyBar
    { ticker := b.ticker, date := b.date, high := b.high, low := b.low,
      close := b.close, volume := b.volume,
      ret1 := r1.getD i none, ret5 := r5.getD i none, vol20 := v20.getD i none,
      rsi14 := rsiCol.getD i none, macd := macdCol.getD i none,
      adx14 := adxCol.getD i none, z_close_20 := zCol.getD i none })

/-- The distinct tickers of the input, in the sorted order `groupby` visits
them. -/
def tickersOf (prices : List PriceBar) : List ℕ :=
  sortOn (fun a b => decide (a ≤ b)) (prices.map (fun b => b.ticker)).dedup

/-- `df.sort_values("date")` for one ticker's bars. -/
def sortBarsByDate (bars : List PriceBar) : List PriceBar :=
  sortOn (fun a b => decide (a.date ≤ b.date)) bars

/-- The column schema of the empty DataFrame returned when no ticker
survives the 15-bar guard (lines 63–64). -/
def expectedCols : List String :=
  ["date", "ticker", "ret1", "ret5", "vol20", "rsi14", "macd", "adx14",
   "z_close_20", "market_news_sent_mean", "market_news_sent_max",
   "market_news_count"]

/-- The columns of the populated output (original price columns, indicator
columns, merged sentiment columns). -/
def outCols : List String :=
  ["date", "ticker", "high", "low", "close", "volume", "ret1", "ret5",
   "vol20", "rsi14", "macd", "adx14", "z_close_20",
   "market_news_sent_mean", "market_news_sent_max", "market_news_count"]

/-- A DataFrame: a column schema plus its rows. -/
structure FeatDF where
  columns : List String
  rows : List FeatRow
  deriving DecidableEq, Repr

/-- The list `feats` of per-ticker blocks accumulated by the loop of
`build_features` (lines 22–58): one block per ticker that passes the 15-row
guard, in `groupby` order; tickers with fewer than 15 bars contribute
nothing. -/
def featBlocks (lib : ExtLib) (prices : List PriceBar) : List (List PreRow) :=
  (tickersOf prices).filterMap (fun t =>
    if (sortBarsByDate (prices.filter (fun b => b.ticker == t))).length < 15 then none
    else some (tickerBlock lib (sortBarsByDate (prices.filter (fun b => b.ticker == t)))))

/-- `build_features(prices, news)` (lines 14–72): group by ticker, skip
tickers with fewer than 15 bars, compute the indicator block, concatenate,
drop rows with NaN `ret1`, left-merge the sentiment aggregate.  When no
ticker survives the guard, return the empty frame carrying the expected
column schema (lines 60–64). -/
def buildFeatures (lib : ExtLib) (prices : List PriceBar) (news : List NewsItem) : FeatDF :=
  if (featBlocks lib prices).isEmpty then ⟨expectedCols, []⟩
  else
    ⟨outCols,
      (((featBlocks lib prices).flatten.filter (fun r => r.ret1.isSome)).map (addSent news))⟩

/-! ## Trainer (`train_model.py`) -/

/-- The fixed feature-column contract (`FEAT_COLS`, lines 16–17). -/
def FEAT_COLS : List String :=
  ["ret1", "ret5", "vol20", "rsi14", "macd", "adx14", "z_close_20",
   "market_news_sent_mean", "market_news_sent_max", "market_news_count"]

/-- A labeled training row: a feature row plus its `y_next` label. -/
structure LabeledRow where
  row : FeatRow
  y_next : ℚ
  deriving DecidableEq, Repr

/-- `df.sort_values(["ticker","date"])` of `make_labels`. -/
def sortByTickerDate (rows : List FeatRow) : List FeatRow :=
  sortOn (fun a b => decide (a.ticker < b.ticker ∨ (a.ticker = b.ticker ∧ a.date ≤ b.date))) rows

/-- `groupby("ticker")["ret1"].shift(-1)` followed by
`dropna(subset=["y_next"])` on a (ticker, date)-sorted list: a row is kept
with label `v` when the next row belongs to the same ticker and has
`ret1 = some v`; the last row of each ticker (and any row whose successor
has NaN `ret1`) is dropped. -/
def labelPass : List FeatRow → List LabeledRow
  | [] => []
  | [_] => []
  | a :: b :: rest =>
      (if a.ticker = b.ticker then
        match b.ret1 with
        | some v => [⟨a, v⟩]
        | none => []
      else []) ++ labelPass (b :: rest)

/-- `make_labels` (lines 19–22 of `train_model.py`). -/
def makeLabels (rows : List FeatRow) : List LabeledRow :=
  labelPass (sortByTickerDate rows)

/-- `sklearn.model_selection.TimeSeriesSplit(n_splits=k).split` on `n`
samples: `test_size = n / (k+1)`, fold `i` trains on the first
`n - (k-i)*test_size` positions and tests on the next `test_size`. -/
def tsSplit (n k : ℕ) : List (List ℕ × List ℕ) :=
  let testSize := n / (k + 1)
  (List.range k).map (fun i =>
    let start := n - (k - i) * testSize
    (List.range start, (List.range testSize).map (fun j => j + start)))

/-- `min(5, len(df) // 10)` — the adaptive fold count (line 95). -/
def nSplitsOf (n : ℕ) : ℕ := min 5 (n / 10)

/-- The folds the `__main__` CV loop iterates over for a given feature set
(lines 95–99): positional `TimeSeriesSplit` over the `(ticker, date)`-sorted
labeled rows. -/
def trainerFolds (rows : List FeatRow) : List (List ℕ × List ℕ) :=
  tsSplit (makeLabels rows).length (nSplitsOf (makeLabels rows).length)

/-- Date of the labeled row at position `i` of the sorted training frame. -/
def labeledDateAt (d : List LabeledRow) (i : ℕ) : ℕ :=
  ((d.get? i).map (fun r => r.row.date)).getD 0

/-! ## Model store (`ModelsDAO.save_model`, lines 434–457 of `db/models.py`) -/

/-- A stored `ModelArtifact` record, with the fields written by
`save_model_to_mongodb` (`train_model.py`, lines 46–58).  `model_id` is the
timestamp-derived identifier (monotonic by creation time, modelled as `ℕ`);
`model_data` is the opaque serialized blob. -/
structure ModelRec where
  model_id : ℕ
  model_type : String
  feature_columns : List String
  model_data : ℕ
  training_date : ℕ
  cv_mae : ℚ
  n_estimators : ℕ
  learning_rate : ℚ
  is_active : Bool
  model_version : String
  training_samples : ℕ
  deriving DecidableEq, Repr

/-- The first write of `save_model`:
`update_many({"is_active": True}, {"$set": {"is_active": False}})`. -/
def deactivateAll (s : List ModelRec) : List ModelRec :=
  s.map (fun m => { m with is_active := false })

/-- Number of records with `is_active = true`. -/
def countActive (s : List ModelRec) : ℕ :=
  (s.filter (fun m => m.is_active)).length

/-- `ModelsDAO.save_model`: stamp the timestamp id, deactivate every active
record with one `update_many`, then `insert_one` the new record.  Returns
the new store and the new `model_id`. -/
def saveModel (s : List ModelRec) (m : ModelRec) (now : ℕ) : List ModelRec × ℕ :=
  let m' := { m with model_id := now }
  (deactivateAll s ++ [m'], now)

/-- The sequence of store states a concurrent reader can observe while
`save_model` runs: before the `update_many`, between the `update_many` and
the `insert_one` (they are two separate MongoDB operations, not one
transaction), and after the `insert_one`. -/
def saveModelStates (s : List ModelRec) (m : ModelRec) (now : ℕ) : List (List ModelRec) :=
  [s, deactivateAll s, (saveModel s m now).1]

/-! ## Trainer main flow (`train_model.py`, `__main__`, lines 67–123) -/

inductive TrainErr
  | noFeatures
  | insufficientData
  deriving DecidableEq, Repr

/-- The per-fold label vectors handed to fit/score (`y.iloc[tr]`,
`y.iloc[te]`). -/
def selectY (d : List LabeledRow) (idxs : List ℕ) : List ℚ :=
  idxs.filterMap (fun i => (d.get? i).map (fun r => r.y_next))

/-- The CV loop (lines 95–107) plus the model record built by
`save_model_to_mongodb` (lines 46–58): fold MAEs from the external fit,
their mean as `cv_mae`, the fixed hyperparameters and `is_active = True`. -/
def trainArtifact (lib : ExtLib) (d : List LabeledRow) (now : ℕ) : ModelRec :=
  { model_id := 0, model_type := "LGBMRegressor", feature_columns := FEAT_COLS,
    model_data := lib.fitBlob (d.map (fun r => r.y_next)), training_date := now,
    cv_mae := meanQ ((tsSplit d.length (nSplitsOf d.length)).map
      (fun f => lib.foldMae (selectY d f.1) (selectY d f.2))),
    n_estimators := 800, learning_rate := 3 / 100, is_active := true,
    model_version := "1.0", training_samples := FEAT_COLS.length }

/-- The `__main__` body of `train_model.py`: abort when the feature frame is
empty; build labels; abort when fewer than 50 labeled samples remain (lines
84–86); otherwise run the `TimeSeriesSplit` CV loop, fit the final model and
publish it via `ModelsDAO.save_model`.  Returns the new model store and
model id, or the fatal error (`exit(1)` writes nothing). -/
def trainMain (lib : ExtLib) (featRows : List FeatRow) (store : List ModelRec)
    (now : ℕ) : Except TrainErr (List ModelRec × ℕ) :=
  if featRows.isEmpty then .error .noFeatures
  else if (makeLabels featRows).length < 50 then .error .insufficientData
  else .ok (saveModel store (trainArtifact lib (makeLabels featRows) now) now)

/-! ## Predictions (`predict.py` + `PredictionsDAO.insert_predictions`,
lines 512–557 of `db/models.py`) -/

/-- A row of the predictions DataFrame handed to `insert_predictions`
(the `out` frame of `predict.py`: date, ticker, y_pred, y_pred_conf). -/
structure PredInRow where
  date : ℕ
  ticker : ℕ
  y_pred : ℚ
  y_pred_conf : ℚ
  deriving DecidableEq, Repr

/-- A stored prediction record. -/
structure PredRec where
  ticker : ℕ
  prediction_date : ℕ
  target_date : ℕ
  y_pred : ℚ
  y_pred_conf : ℚ
  model_id : ℕ
  deriving DecidableEq, Repr

/-- The record preparation of `insert_predictions` (lines 522–531):
`prediction_date = date` and `target_date = date + pd.Timedelta(days=1)` —
one *calendar* day after the feature date. -/
def prepPrediction (mid : ℕ) (r : PredInRow) : PredRec :=
  { ticker := r.ticker, prediction_date := r.date, target_date := r.date + 1,
    y_pred := r.y_pred, y_pred_conf := r.y_pred_conf, model_id := mid }

/-- Key filter of the prediction upsert:
`(prediction_date, ticker, model_id)` (lines 538–542). -/
def predKeyMatch (pd tk mid : ℕ) (x : PredRec) : Bool :=
  x.prediction_date == pd && x.ticker == tk && x.model_id == mid

/-- `PredictionsDAO.insert_predictions`: prepare each record and upsert it
with `ReplaceOne` keyed by `(prediction_date, ticker, model_id)`. -/
def insertPredictions (mid : ℕ) (df : List PredInRow) (s : List PredRec) : List PredRec :=
  df.foldl (fun st r =>
    let pr := prepPrediction mid r
    replaceOneBy (predKeyMatch pr.prediction_date pr.ticker mid) pr st) s

/-- `PricesDAO.insert_prices` record preparation: add `data_source` and
`dep_type` (lines 109–112). -/
def prepPrice (ds dep : String) (b : PriceBar) : PriceRec :=
  { ticker := b.ticker, date := b.date, high := b.high, low := b.low,
    close := b.close, volume := b.volume, data_source := ds, dep_type := dep }

/-- `PricesDAO.insert_prices`: upsert each bar with `ReplaceOne` keyed by
`(date, ticker)` (lines 118–127). -/
def insertPrices (ds dep : String) (df : List PriceBar) (s : List PriceRec) : List PriceRec :=
  df.foldl (fun st b =>
    let r := prepPrice ds dep b
    replaceOneBy (fun x => x.date == r.date && x.ticker == r.ticker) r st) s

/-! ## Evaluator (`evaluate_and_explain.py`, `__main__`, lines 52–142) -/

inductive EvalErr
  | noFeatures
  | noPredictions
  | noModel
  | insufficientDates
  | noRealized
  | noMatches
  deriving DecidableEq, Repr

/-- A stored evaluation row.  The SHAP explanation text (`gap_reason_text`)
is produced by the external `shap` library and never read by any guard or
metric, so it is not modelled. -/
structure EvalRow where
  ticker : ℕ
  prediction_date : ℕ
  model_id : ℕ
  y_pred : ℚ
  y_true : ℚ
  abs_gap : ℚ
  signed_gap : ℚ
  evaluation_date : ℕ
  target_date : ℕ
  deriving DecidableEq, Repr

/-- `sorted(feats["date"].unique())` (line 74). -/
def distinctDatesSorted (feats : List FeatRow) : List ℕ :=
  sortOn (fun a b => decide (a ≤ b)) (feats.map (fun r => r.date)).dedup

/-- The next trading day after `d` relative to the available feature dates:
the smallest recorded date strictly after `d` (the spec's "one trading day"
advancement unit). -/
def nextTradingDay (dates : List ℕ) (d : ℕ) : Option ℕ :=
  (dates.filter (fun x => d < x)).foldr
    (fun a b => match b with | none => some a | some c => some (min a c)) none

/-- `nextday = all_dates[-1]` (line 79): the latest stored feature date. -/
def evalNextday (feats : List FeatRow) : ℕ :=
  ((distinctDatesSorted feats).getLast?).getD 0

/-- `realized` (line 85): `(ticker, ret1)` of the rows dated `nextday`. -/
def realizedRows (feats : List FeatRow) : List (ℕ × Option ℚ) :=
  (feats.filter (fun r => r.date == evalNextday feats)).map
    (fun r => (r.ticker, r.ret1))

/-- `preds.merge(realized, on="ticker", how="left")` (line 92): each
prediction is paired with every realized row of the same ticker, or with a
NaN `y_true` when no realized row matches. -/
def mergedRows (feats : List FeatRow) (preds : List PredRec) :
    List (PredRec × Option ℚ) :=
  preds.flatMap (fun p =>
    if ((realizedRows feats).filter (fun q => q.1 == p.ticker)).isEmpty then
      [(p, (none : Option ℚ))]
    else ((realizedRows feats).filter (fun q => q.1 == p.ticker)).map
      (fun q => (p, q.2)))

/-- `merged.dropna(subset=["y_true"])` (line 93): keep only pairs with a
realized return. -/
def keptRows (feats : List FeatRow) (preds : List PredRec) : List (PredRec × ℚ) :=
  (mergedRows feats preds).filterMap (fun pq => pq.2.map (fun y => (pq.1, y)))

/-- The `__main__` body of `evaluate_and_explain.py`: guards on empty
features/predictions/model, requires at least two distinct feature dates,
takes `nextday` as the *latest* feature date, reads realized returns
(`y_true = ret1`) from that date's rows, left-merges predictions on
`ticker`, drops rows without a realized `y_true`, computes gaps and stamps
`target_date = nextday` on every surviving row (line 132).  `exit(1)`
branches are errors (nothing written). -/
def evalMain (feats : List FeatRow) (preds : List PredRec)
    (activeModel : Option ℕ) (now : ℕ) : Except EvalErr (List EvalRow) :=
  if feats.isEmpty then .error .noFeatures
  else if preds.isEmpty then .error .noPredictions
  else if activeModel.isNone then .error .noModel
  else if (distinctDatesSorted feats).length < 2 then .error .insufficientDates
  else if (realizedRows feats).isEmpty then .error .noRealized
  else if (keptRows feats preds).isEmpty then .error .noMatches
  else .ok ((keptRows feats preds).map (fun py =>
    { ticker := py.1.ticker, prediction_date := py.1.prediction_date,
      model_id := py.1.model_id, y_pred := py.1.y_pred, y_true := py.2,
      abs_gap := |py.2 - py.1.y_pred|, signed_gap := py.2 - py.1.y_pred,
      evaluation_date := now, target_date := evalNextday feats }))

/-- `EvaluationsDAO.insert_evaluations`: upsert each row with `ReplaceOne`
keyed by `(target_date, ticker)` (lines 603–615 of `db/models.py`). -/
def insertEvaluations (rows : List EvalRow) (s : List EvalRow) : List EvalRow :=
  rows.foldl (fun st r =>
    replaceOneBy (fun x => x.target_date == r.target_date && x.ticker == r.ticker) r st) s

/-- One evaluator run against an evaluation store: on any fatal guard the
store is untouched, otherwise the produced rows are upserted. -/
def evalAndSave (feats : List FeatRow) (preds : List PredRec)
    (activeModel : Option ℕ) (now : ℕ) (s : List EvalRow) : List EvalRow :=
  match evalMain feats preds activeModel now with
  | .error _ => s
  | .ok rows => insertEvaluations rows s

/-! ## Concrete instances used by counterexamples and witnesses -/

/-- A concrete instantiation of the external-library primitives: identity
log/sqrt and constant-valued indicator columns of the right length.  Used
only to evaluate the embedding on concrete inputs. -/
def trivLib : ExtLib :=
  { ln := id, sqrt := id,
    rsi := fun c _ => List.replicate c.length (some 50),
    macd := fun c => some (List.replicate c.length (some 0)),
    adx := fun _ _ c _ => some (List.replicate c.length (some 25)),
    foldMae := fun _ _ => 0,
    fitBlob := fun _ => 0 }

/-- The external library with a square root that is identically zero on the
one input it is applied to in the zero-variance scenario (`sqrt 0 = 0`). -/
def zeroSqrtLib : ExtLib := { trivLib with sqrt := fun _ => 0 }

/-- A stored feature row for ticker `t` on day `d` with defined `ret1`. -/
def mkFeatRow (t d : ℕ) : FeatRow :=
  { ticker := t, date := d, high := 1, low := 1, close := 1, volume := 1,
    ret1 := some 1, ret5 := none, vol20 := none, rsi14 := none, macd := none,
    adx14 := none, z_close_20 := none, market_news_sent_mean := 0,
    market_news_sent_max := 0, market_news_count := 0 }

/-- Feature history with two tickers: ticker 0 has 27 rows (days 0–26),
ticker 1 has 25 rows (days 0–24); all `ret1` defined, hence 26 + 24 = 50
labeled samples — enough to pass the Trainer's minimum-data guard. -/
def c2Rows : List FeatRow :=
  (List.range 27).map (mkFeatRow 0) ++ (List.range 25).map (mkFeatRow 1)

/-- `true` when every indicator field of the row is populated (non-NaN). -/
def allPopulated (r : FeatRow) : Bool :=
  r.ret1.isSome && r.ret5.isSome && r.vol20.isSome && r.rsi14.isSome &&
  r.macd.isSome && r.adx14.isSome && r.z_close_20.isSome

/-- One ticker with exactly 15 bars (days 0–14, strictly rising closes):
passes the 15-bar guard but is far inside the 20-observation warm-up of
`vol20` and `z_close_20`. -/
def c4Prices : List PriceBar :=
  (List.range 15).map (fun i =>
    { ticker := 0, date := i, high := (i : ℚ) + 2, low := 1,
      close := (i : ℚ) + 1, volume := 100 })

/-- Ticker 0 with only 3 bars next to ticker 1 with 15 bars. -/
def c7Prices : List PriceBar :=
  (List.range 3).map (fun i =>
    { ticker := 0, date := i, high := 2, low := 1, close := 1, volume := 100 }) ++
  (List.range 15).map (fun i =>
    { ticker := 1, date := i, high := (i : ℚ) + 2, low := 1,
      close := (i : ℚ) + 1, volume := 100 })

/-- Twenty identical closes: the 20-day rolling standard deviation at the
last position is exactly zero. -/
def c9Closes : List ℚ := List.replicate 20 5

/-- A published model record as `save_model_to_mongodb` builds it. -/
def sampleModelRec : ModelRec :=
  { model_id := 0, model_type := "LGBMRegressor", feature_columns := FEAT_COLS,
    model_data := 0, training_date := 0, cv_mae := 0, n_estimators := 800,
    learning_rate := 3 / 100, is_active := true, model_version := "1.0",
    training_samples := 10 }

/-- A model store holding exactly one active artifact. -/
def c1Store : List ModelRec := [sampleModelRec]

/-- Feature rows on trading days 4 and 7 (5 and 6 are a weekend: the market
was closed, so no feature rows exist for them). -/
def c3Feats : List FeatRow := [mkFeatRow 0 4, mkFeatRow 0 7]

/-- The prediction made from the day-4 feature snapshot. -/
def c3PredIn : PredInRow := { date := 4, ticker := 0, y_pred := 1, y_pred_conf := 1 }

/-- The prediction store after that run. -/
def c3Preds : List PredRec := [prepPrediction 0 c3PredIn]

/-- Feature rows for days 1 and 2 only. -/
def c8Feats : List FeatRow := [mkFeatRow 0 1, mkFeatRow 0 2]

/-- A prediction for date `D = 2`: its target day `D + 1 = 3` has no feature
row at all. -/
def c8Preds : List PredRec :=
  [prepPrediction 0 { date := 2, ticker := 0, y_pred := 1, y_pred_conf := 1 }]

/-- Fifty single-ticker feature rows: exactly 49 labeled samples. -/
def c6Rows49 : List FeatRow := (List.range 50).map (mkFeatRow 0)

/-- Fifty-one single-ticker feature rows: exactly 50 labeled samples. -/
def c6Rows50 : List FeatRow := (List.range 51).map (mkFeatRow 0)

/-- A price bar reused by the upsert-idempotence witness. -/
def c5Bar : PriceBar :=
  { ticker := 3, date := 11, high := 7, low := 5, close := 6, volume := 1000 }

/-- First prediction run for `(ticker 2, date 3)`. -/
def c5P1 : PredInRow := { date := 3, ticker := 2, y_pred := 1, y_pred_conf := 1 }

/-- Second prediction run for the same key, differing only in `y_pred`. -/
def c5P2 : PredInRow := { date := 3, ticker := 2, y_pred := 2, y_pred_conf := 1 }

/-- A single-date feature store (one distinct date only). -/
def c8SingleFeats : List FeatRow := [mkFeatRow 0 1]

/-- Three price bars of a single ticker: nobody passes the 15-bar guard. -/
def c10Prices : List PriceBar :=
  (List.range 3).map (fun i =>
    { ticker := 0, date := i, high := 2, low := 1, close := 1, volume := 100 })

/-! ## Helper lemmas -/

theorem mem_insOn (le : α → α → Bool) (a x : α) (l : List α) :
    x ∈ insOn le a l ↔ x = a ∨ x ∈ l := by
  induction l with
  | nil => simp [insOn]
  | cons b bs ih =>
      simp only [insOn]
      by_cases h : le b a = true
      · simp [h, ih]
        tauto
      · simp [h]

theorem mem_sortOn (le : α → α → Bool) (x : α) (l : List α) :
    x ∈ sortOn le l ↔ x ∈ l := by
  induction l with
  | nil => simp [sortOn]
  | cons a as ih => simp [sortOn, mem_insOn, ih]

theorem length_insOn (le : α → α → Bool) (a : α) (l : List α) :
    (insOn le a l).length = l.length + 1 := by
  induction l with
  | nil => simp [insOn]
  | cons b bs ih =>
      simp only [insOn]
      by_cases h : le b a = true
      · simp [h, ih]
      · simp [h]

theorem length_sortOn (le : α → α → Bool) (l : List α) :
    (sortOn le l).length = l.length := by
  induction l with
  | nil => rfl
  | cons a as ih => simp [sortOn, length_insOn, ih]

theorem replaceOneBy_idem (p : α → Bool) (r : α) (hr : p r = true)
    (s : List α) : replaceOneBy p r (replaceOneBy p r s) = replaceOneBy p r s := by
  induction s with
  | nil => simp [replaceOneBy, hr]
  | cons x xs ih =>
      by_cases h : p x = true
      · simp [replaceOneBy, h, hr]
      · simp [replaceOneBy, h, ih]

theorem replaceOneBy_of_filter_nil (p : α → Bool) (r : α) (s : List α)
    (h : s.filter p = []) : replaceOneBy p r s = s ++ [r] := by
  induction s with
  | nil => rfl
  | cons x xs ih =>
      rw [List.filter_cons] at h
      by_cases hx : p x = true
      · simp [hx] at h
      · simp only [hx, Bool.false_eq_true, if_false] at h
        simp [replaceOneBy, hx, ih h]

theorem replaceOneBy_append_singleton (p : α → Bool) (r x : α) (s : List α)
    (hs : s.filter p = []) (hx : p x = true) :
    replaceOneBy p r (s ++ [x]) = s ++ [r] := by
  induction s with
  | nil => simp [replaceOneBy, hx]
  | cons a as ih =>
      rw [List.filter_cons] at hs
      by_cases ha : p a = true
      · simp [ha] at hs
      · simp only [ha, Bool.false_eq_true, if_false] at hs
        simp [replaceOneBy, ha, ih hs]

theorem getD_mem {l : List α} {i : ℕ} (h : i < l.length) (d : α) :
    l.getD i d ∈ l := by
  induction l generalizing i with
  | nil => simp at h
  | cons a as ih =>
      cases i with
      | zero => simp [List.getD]
      | succ n =>
          simp only [List.getD_cons_succ]
          exact List.mem_cons_of_mem _ (ih (by simpa using h))

theorem filter_deactivateAll (s : List ModelRec) :
    (deactivateAll s).filter (fun m => m.is_active) = [] := by
  induction s with
  | nil => rfl
  | cons a as ih =>
      simp only [deactivateAll, List.map_cons, List.filter_cons] at ih ⊢
      simp [ih]

theorem countActive_deactivateAll (s : List ModelRec) :
    countActive (deactivateAll s) = 0 := by
  simp [countActive, filter_deactivateAll]

theorem saveModel_filter_active (s : List ModelRec) (m : ModelRec) (now : ℕ)
    (h : m.is_active = true) :
    ((saveModel s m now).1.filter (fun r => r.is_active)) = [{ m with model_id := now }] := by
  simp [saveModel, List.filter_append, filter_deactivateAll, List.filter_cons, h]

theorem countActive_saveModel (s : List ModelRec) (m : ModelRec) (now : ℕ)
    (h : m.is_active = true) : countActive (saveModel s m now).1 = 1 := by
  simp [countActive, saveModel_filter_active s m now h]

theorem ticker_of_mem_tickerBlock {lib : ExtLib} {bars : List PriceBar} {r : PreRow}
    (hr : r ∈ tickerBlock lib bars) : ∃ b ∈ bars, r.ticker = b.ticker := by
  simp only [tickerBlock, List.mem_map, List.mem_range] at hr
  obtain ⟨i, hi, rfl⟩ := hr
  exact ⟨bars.getD i dummyBar, getD_mem hi _, rfl⟩

theorem addSent_ticker (news : List NewsItem) (r : PreRow) :
    (addSent news r).ticker = r.ticker := rfl

theorem addSent_ret1 (news : List NewsItem) (r : PreRow) :
    (addSent news r).ret1 = r.ret1 := rfl

/-- Dissection of membership in the populated output of `buildFeatures`:
every output row is the sentiment-merge of a pre-row with defined `ret1`
coming from the block of a ticker with at least 15 bars. -/
theorem mem_rows_buildFeatures {lib : ExtLib} {prices : List PriceBar}
    {news : List NewsItem} {r : FeatRow}
    (hr : r ∈ (buildFeatures lib prices news).rows) :
    ∃ r', r = addSent news r' ∧ r'.ret1.isSome = true ∧
      ∃ t ∈ tickersOf prices,
        15 ≤ (prices.filter (fun b => b.ticker == t)).length ∧
        r' ∈ tickerBlock lib (sortBarsByDate (prices.filter (fun b => b.ticker == t))) := by
  by_cases hc : (featBlocks lib prices).isEmpty = true
  · simp [buildFeatures, hc] at hr
  · simp only [buildFeatures, hc, Bool.false_eq_true, if_false] at hr
    rw [List.mem_map] at hr
    obtain ⟨r', hr', rfl⟩ := hr
    rw [List.mem_filter] at hr'
    obtain ⟨hrf, hret⟩ := hr'
    rw [List.mem_flatten] at hrf
    obtain ⟨block, hb, hrb⟩ := hrf
    rw [featBlocks, List.mem_filterMap] at hb
    obtain ⟨t, ht, hbt⟩ := hb
    by_cases hlt : (sortBarsByDate (prices.filter (fun b => b.ticker == t))).length < 15
    · simp [hlt] at hbt
    · refine ⟨r', rfl, hret, t, ht, ?_, ?_⟩
      · rw [sortBarsByDate, length_sortOn] at hlt
        omega
      · simp only [hlt, if_false] at hbt
        rw [Option.some_inj] at hbt
        exact hbt ▸ hrb

theorem mem_sortBarsByDate (b : PriceBar) (l : List PriceBar) :
    b ∈ sortBarsByDate l ↔ b ∈ l := mem_sortOn _ _ _

theorem length_sortBarsByDate (l : List PriceBar) :
    (sortBarsByDate l).length = l.length := length_sortOn _ _

theorem evalMain_notOk_of_few_dates {feats : List FeatRow} {preds : List PredRec}
    {mo : Option ℕ} {now : ℕ} (h : (distinctDatesSorted feats).length < 2) :
    (evalMain feats preds mo now).isOk = false := by
  unfold evalMain
  repeat' split
  all_goals simp_all [Except.isOk, Except.toBool]

theorem evalAndSave_of_notOk {feats : List FeatRow} {preds : List PredRec}
    {mo : Option ℕ} {now : ℕ} {s : List EvalRow}
    (h : (evalMain feats preds mo now).isOk = false) :
    evalAndSave feats preds mo now s = s := by
  rcases he : evalMain feats preds mo now with e | rows
  · simp [evalAndSave, he]
  · rw [he] at h
    simp [Except.isOk, Except.toBool] at h

theorem evalMain_ok_elim {feats : List FeatRow} {preds : List PredRec}
    {mo : Option ℕ} {now : ℕ} {rows : List EvalRow}
    (h : evalMain feats preds mo now = .ok rows) :
    rows = (keptRows feats preds).map (fun py =>
      ({ ticker := py.1.ticker, prediction_date := py.1.prediction_date,
         model_id := py.1.model_id, y_pred := py.1.y_pred, y_true := py.2,
         abs_gap := |py.2 - py.1.y_pred|, signed_gap := py.2 - py.1.y_pred,
         evaluation_date := now, target_date := evalNextday feats } : EvalRow)) := by
  unfold evalMain at h
  repeat' split at h
  all_goals simp_all

/-- Every surviving merged-and-kept pair comes from a realized feature row
of the evaluation date with matching ticker and a defined `ret1`. -/
theorem mem_keptRows {feats : List FeatRow} {preds : List PredRec} {py : PredRec × ℚ}
    (h : py ∈ keptRows feats preds) :
    ∃ fr ∈ feats, fr.date = evalNextday feats ∧ fr.ticker = py.1.ticker ∧
      fr.ret1 = some py.2 := by
  unfold keptRows at h
  rw [List.mem_filterMap] at h
  obtain ⟨pq, hpq, hmap⟩ := h
  rw [Option.map_eq_some'] at hmap
  obtain ⟨y, hy, hpair⟩ := hmap
  unfold mergedRows at hpq
  rw [List.mem_flatMap] at hpq
  obtain ⟨p, hp, hin⟩ := hpq
  by_cases hms : ((realizedRows feats).filter (fun q => q.1 == p.ticker)).isEmpty = true
  · rw [if_pos hms] at hin
    simp only [List.mem_singleton] at hin
    rw [hin] at hy
    simp at hy
  · rw [if_neg (by simp [hms])] at hin
    rw [List.mem_map] at hin
    obtain ⟨q, hq, hqeq⟩ := hin
    rw [List.mem_filter] at hq
    obtain ⟨hqr, hqt⟩ := hq
    unfold realizedRows at hqr
    rw [List.mem_map] at hqr
    obtain ⟨fr, hfr, hfq⟩ := hqr
    rw [List.mem_filter] at hfr
    subst hfq
    subst hqeq
    subst hpair
    refine ⟨fr, hfr.1, by simpa using hfr.2, ?_, ?_⟩
    · simpa using hqt
    · simpa using hy

/-! ## Claim theorems -/

/-- Claim C1, counterexample: `save_model` deactivates all artifacts with
one `update_many` and only then inserts the new active one, so a reader
between the two operations sees a store with zero active artifacts — the
transition is not atomic.  Concretely, starting from a store with exactly
one active artifact, the observable state sequence of a publish does not
keep "exactly one active" throughout. -/
theorem saveModel_activation_window_counterexample :
    ¬ ∀ st ∈ saveModelStates c1Store sampleModelRec 1, countActive st = 1 := by
  decide

/-- Claim C1 (amended): after `save_model` completes, exactly one artifact
is active — the newly inserted, most recently published one (it is the last
record and carries the fresh id) — but between the `update_many` and the
`insert_one` the store holds zero active artifacts, so the transition is
two sequential writes, not an atomic one. -/
theorem saveModel_single_active_after_publish (s : List ModelRec) (m : ModelRec)
    (now : ℕ) (h : m.is_active = true) :
    (saveModel s m now).1.filter (fun r => r.is_active) = [{ m with model_id := now }] ∧
    (saveModel s m now).1.getLast? = some { m with model_id := now } ∧
    countActive (deactivateAll s) = 0 := by
  refine ⟨saveModel_filter_active s m now h, ?_, countActive_deactivateAll s⟩
  simp [saveModel, List.getLast?_concat]

/-- Claim C1, witness: the amended statement evaluated on a store holding
one active artifact. -/
theorem saveModel_single_active_after_publish_witness :
    sampleModelRec.is_active = true ∧
    ((saveModel c1Store sampleModelRec 7).1.filter (fun r => r.is_active) =
        [{ sampleModelRec with model_id := 7 }] ∧
      (saveModel c1Store sampleModelRec 7).1.getLast? =
        some { sampleModelRec with model_id := 7 } ∧
      countActive (deactivateAll c1Store) = 0) :=
  ⟨rfl, saveModel_single_active_after_publish c1Store sampleModelRec 7 rfl⟩

/-- Claim C2, evaluation at the failing input: with two tickers (50 labeled
samples in total) the Trainer's `TimeSeriesSplit` runs over row positions of
the `(ticker, date)`-sorted frame, and its third fold trains on position 25
(ticker 0, date 25) while testing on position 26 (ticker 0 of the *other*
ticker's block — ticker 1, date 0): a test date strictly precedes a training
date, violating the chronological-fold property. -/
theorem trainer_fold_leakage_at_failing_input :
    (List.range 26, [26, 27, 28, 29, 30, 31, 32, 33]) ∈ trainerFolds c2Rows ∧
    25 ∈ List.range 26 ∧ 26 ∈ [26, 27, 28, 29, 30, 31, 32, 33] ∧
    labeledDateAt (makeLabels c2Rows) 26 < labeledDateAt (makeLabels c2Rows) 25 :=
  ⟨by decide, by decide, by decide, by decide⟩

/-- Claim C3, counterexample: with feature rows on trading days 4 and 7
(weekend gap), the stored prediction for day 4 carries
`target_date = 4 + 1 = 5` — a calendar day, not the next trading day 7 —
while the Evaluator joins the same prediction against day 7 and stamps 7 as
its `target_date`; the two advancement units disagree. -/
theorem prediction_target_date_counterexample :
    (prepPrediction 0 c3PredIn).target_date = 5 ∧
    nextTradingDay (distinctDatesSorted c3Feats) c3PredIn.date = some 7 ∧
    some (prepPrediction 0 c3PredIn).target_date ≠
      nextTradingDay (distinctDatesSorted c3Feats) c3PredIn.date ∧
    ((evalMain c3Feats c3Preds (some 0) 9).toOption.getD []).map
      (fun e => e.target_date) = [7] :=
  ⟨by decide, by decide, by decide, by decide⟩

/-- Claim C3 (amended): every stored Prediction has
`target_date = prediction_date + 1` *calendar* day, while the Evaluator
independently stamps the latest available feature date as `target_date` on
every evaluation row; the two coincide only when the next trading day is
exactly one calendar day later. -/
theorem prediction_target_date_calendar_day :
    (∀ (mid : ℕ) (r : PredInRow), (prepPrediction mid r).target_date = r.date + 1) ∧
    (∀ (feats : List FeatRow) (preds : List PredRec) (mo : Option ℕ) (now : ℕ),
      ((evalMain feats preds mo now).toOption.getD []).all
        (fun e => e.target_date == evalNextday feats) = true) := by
  constructor
  · intro mid r
    rfl
  · intro feats preds mo now
    rcases h : evalMain feats preds mo now with e | rows
    · simp [Except.toOption]
    · simp only [Except.toOption, Option.getD_some]
      have hrows := evalMain_ok_elim h
      subst hrows
      rw [List.all_eq_true]
      intro e he
      rw [List.mem_map] at he
      obtain ⟨py, -, rfl⟩ := he
      simp

/-- Claim C4, counterexample: a ticker with exactly 15 bars passes the
15-bar guard, its 14 output rows all have `ret1` defined, yet none of them
is fully populated — `vol20` and `z_close_20` are still inside their 20-row
warm-up and remain NaN, so output rows are partial. -/
theorem feature_rows_fully_populated_counterexample :
    ((buildFeatures trivLib c4Prices []).rows.all allPopulated) = false := by
  decide

/-- Claim C4 (amended): `build_features` drops exactly the rows whose `ret1`
is undefined, so every output row has `ret1` populated (and the sentiment
columns are filled by construction); the remaining indicator fields may
still be NaN during their warm-up, so rows need not be fully populated. -/
theorem feature_rows_ret1_defined (lib : ExtLib) (prices : List PriceBar)
    (news : List NewsItem) :
    ((buildFeatures lib prices news).rows.all (fun r => r.ret1.isSome)) = true := by
  rw [List.all_eq_true]
  intro r hr
  obtain ⟨r', rfl, hret, -⟩ := mem_rows_buildFeatures hr
  simpa [addSent_ret1] using hret

/-- Claim C5: the store upserts are keyed replace-or-inserts.  Upserting the
same price bar twice leaves the store exactly as after the first upsert, and
two sequential prediction runs for the same
`(ticker, prediction_date, model_id)` differing only in `y_pred` leave
exactly one record for that key — the one holding the latest values. -/
theorem upsert_idempotent_and_latest_wins :
    (∀ (ds dep : String) (s : List PriceRec) (b : PriceBar),
      insertPrices ds dep [b] (insertPrices ds dep [b] s) =
        insertPrices ds dep [b] s) ∧
    (∀ (s : List PredRec) (p1 p2 : PredInRow) (mid : ℕ),
      p1.date = p2.date → p1.ticker = p2.ticker →
      s.filter (predKeyMatch p2.date p2.ticker mid) = [] →
      (insertPredictions mid [p2] (insertPredictions mid [p1] s)).filter
        (predKeyMatch p2.date p2.ticker mid) = [prepPrediction mid p2]) := by
  constructor
  · intro ds dep s b
    simp only [insertPrices, List.foldl_cons, List.foldl_nil]
    exact replaceOneBy_idem _ _ (by simp [prepPrice]) s
  · intro s p1 p2 mid hd ht hfil
    obtain ⟨d1, t1, y1, cf1⟩ := p1
    obtain ⟨d2, t2, y2, cf2⟩ := p2
    simp only at hd ht
    subst hd
    subst ht
    show (replaceOneBy (predKeyMatch d1 t1 mid)
        (prepPrediction mid ⟨d1, t1, y2, cf2⟩)
        (replaceOneBy (predKeyMatch d1 t1 mid)
          (prepPrediction mid ⟨d1, t1, y1, cf1⟩) s)).filter
        (predKeyMatch d1 t1 mid) = [prepPrediction mid ⟨d1, t1, y2, cf2⟩]
    have hkey1 : predKeyMatch d1 t1 mid (prepPrediction mid ⟨d1, t1, y1, cf1⟩) = true := by
      simp [predKeyMatch, prepPrediction]
    have hkey2 : predKeyMatch d1 t1 mid (prepPrediction mid ⟨d1, t1, y2, cf2⟩) = true := by
      simp [predKeyMatch, prepPrediction]
    rw [replaceOneBy_of_filter_nil _ _ _ hfil,
      replaceOneBy_append_singleton _ _ _ _ hfil hkey1,
      List.filter_append, hfil]
    simp [hkey2]

/-- Claim C5, witness: the idempotent price upsert and the two-run
prediction scenario evaluated on concrete records. -/
theorem upsert_idempotent_and_latest_wins_witness :
    insertPrices "nse_bhavcopy" "prod" [c5Bar]
        (insertPrices "nse_bhavcopy" "prod" [c5Bar] []) =
      insertPrices "nse_bhavcopy" "prod" [c5Bar] [] ∧
    (insertPredictions 0 [c5P2] (insertPredictions 0 [c5P1] [])).filter
        (predKeyMatch c5P2.date c5P2.ticker 0) = [prepPrediction 0 c5P2] :=
  ⟨upsert_idempotent_and_latest_wins.1 "nse_bhavcopy" "prod" [] c5Bar,
   upsert_idempotent_and_latest_wins.2 [] c5P1 c5P2 0 rfl rfl rfl⟩

/-- Claim C6: with fewer than 50 labeled samples the Trainer aborts with a
fatal error and publishes nothing; with exactly 50 labeled samples it runs
to completion and publishes an artifact, after which exactly one stored
model is active. -/
theorem training_minimum_data_guard (lib : ExtLib) (rows : List FeatRow)
    (store : List ModelRec) (now : ℕ) :
    ((makeLabels rows).length < 50 → (trainMain lib rows store now).isOk = false) ∧
    ((makeLabels rows).length = 50 →
      trainMain lib rows store now =
        .ok (saveModel store (trainArtifact lib (makeLabels rows) now) now) ∧
      countActive (saveModel store (trainArtifact lib (makeLabels rows) now) now).1 = 1) := by
  constructor
  · intro h
    by_cases he : rows.isEmpty = true
    · simp [trainMain, he, Except.isOk, Except.toBool]
    · simp [trainMain, he, h, Except.isOk, Except.toBool]
  · intro h
    have he : rows.isEmpty = false := by
      cases rows
      · exact absurd h (by decide)
      · rfl
    refine ⟨?_, countActive_saveModel _ _ _ rfl⟩
    simp [trainMain, he, h]

/-- Claim C6, witness: 49 labeled samples abort; 50 labeled samples publish
one active artifact. -/
theorem training_minimum_data_guard_witness :
    (makeLabels c6Rows49).length < 50 ∧
    (trainMain trivLib c6Rows49 [] 0).isOk = false ∧
    (makeLabels c6Rows50).length = 50 ∧
    trainMain trivLib c6Rows50 [] 0 =
      .ok (saveModel [] (trainArtifact trivLib (makeLabels c6Rows50) 0) 0) ∧
    countActive (saveModel [] (trainArtifact trivLib (makeLabels c6Rows50) 0) 0).1 = 1 :=
  ⟨by decide,
   (training_minimum_data_guard trivLib c6Rows49 [] 0).1 (by decide),
   by decide,
   ((training_minimum_data_guard trivLib c6Rows50 [] 0).2 (by decide)).1,
   ((training_minimum_data_guard trivLib c6Rows50 [] 0).2 (by decide)).2⟩

/-- Claim C7: a ticker with fewer than 15 price bars contributes no feature
rows at all — `build_features` skips it before computing anything, so the
output contains no row bearing that ticker. -/
theorem short_history_ticker_excluded (lib : ExtLib) (prices : List PriceBar)
    (news : List NewsItem) (t : ℕ)
    (h : (prices.filter (fun b => b.ticker == t)).length < 15) :
    (buildFeatures lib prices news).rows.filter (fun r => r.ticker == t) = [] := by
  rw [List.filter_eq_nil_iff]
  intro r hr
  obtain ⟨r', rfl, -, t', -, hlen, hblock⟩ := mem_rows_buildFeatures hr
  obtain ⟨b, hb, hticker⟩ := ticker_of_mem_tickerBlock hblock
  rw [mem_sortBarsByDate, List.mem_filter] at hb
  have hbt : b.ticker = t' := by simpa using hb.2
  intro hcontra
  rw [addSent_ticker] at hcontra
  have hrt : r'.ticker = t := by simpa using hcontra
  rw [hrt, hbt] at hticker
  rw [hticker] at h
  omega

/-- Claim C7, witness: ticker 0 has only 3 bars next to a ticker with 15,
and the output carries no row for ticker 0. -/
theorem short_history_ticker_excluded_witness :
    (c7Prices.filter (fun b => b.ticker == 0)).length < 15 ∧
    (buildFeatures trivLib c7Prices []).rows.filter (fun r => r.ticker == 0) = [] :=
  ⟨by decide, short_history_ticker_excluded trivLib c7Prices [] 0 (by decide)⟩

/-- Claim C8, counterexample: predictions for date `D = 2` whose
`D + 1 = 3` has no feature row at all.  The claim says the Evaluator must
fail and write nothing; instead it succeeds, writes one evaluation record,
and evaluates the prediction against date 2 — the same date the prediction
was made from. -/
theorem evaluator_missing_next_day_counterexample :
    (evalMain c8Feats c8Preds (some 0) 9).isOk = true ∧
    evalAndSave c8Feats c8Preds (some 0) 9 [] ≠ [] ∧
    ((evalMain c8Feats c8Preds (some 0) 9).toOption.getD []).map
      (fun e => e.target_date) = [2] :=
  ⟨by decide, by decide, by decide⟩

/-- Claim C8 (amended): with fewer than two distinct feature dates the
Evaluator fails and writes nothing; and every evaluation row it does emit
carries a `y_true` realized by an actual feature row of the evaluation date
with matching ticker and defined `ret1` (never a null `y_true`; unmatched
prediction rows are dropped, not imputed).  It does *not* fail when no
feature row exists for `D + 1` — it evaluates against the latest stored
feature date instead. -/
theorem evaluator_guards_and_join (feats : List FeatRow) (preds : List PredRec)
    (mo : Option ℕ) (now : ℕ) (s : List EvalRow) :
    ((distinctDatesSorted feats).length < 2 →
      (evalMain feats preds mo now).isOk = false ∧
      evalAndSave feats preds mo now s = s) ∧
    (((evalMain feats preds mo now).toOption.getD []).all
      (fun e => feats.any (fun fr =>
        fr.ticker == e.ticker && fr.date == evalNextday feats &&
        fr.ret1 == some e.y_true)) = true) := by
  constructor
  · intro hlt
    have herr := @evalMain_notOk_of_few_dates feats preds mo now hlt
    exact ⟨herr, evalAndSave_of_notOk herr⟩
  · rcases h : evalMain feats preds mo now with e | rows
    · simp [Except.toOption]
    · simp only [Except.toOption, Option.getD_some]
      have hrows := evalMain_ok_elim h
      subst hrows
      rw [List.all_eq_true]
      intro e he
      rw [List.mem_map] at he
      obtain ⟨py, hpy, rfl⟩ := he
      obtain ⟨fr, hfr, hdate, hticker, hret⟩ := mem_keptRows hpy
      rw [List.any_eq_true]
      exact ⟨fr, hfr, by simp [hdate, hticker, hret]⟩

/-- Claim C8, witness: a single-date feature store makes the Evaluator fail
without writing, and the realized-join property evaluated on the two-date
store. -/
theorem evaluator_guards_and_join_witness :
    (distinctDatesSorted c8SingleFeats).length < 2 ∧
    ((evalMain c8SingleFeats c8Preds (some 0) 9).isOk = false ∧
      evalAndSave c8SingleFeats c8Preds (some 0) 9 [] = []) ∧
    ((evalMain c8Feats c8Preds (some 0) 9).toOption.getD []).all
      (fun e => c8Feats.any (fun fr =>
        fr.ticker == e.ticker && fr.date == evalNextday c8Feats &&
        fr.ret1 == some e.y_true)) = true :=
  ⟨by decide,
   (evaluator_guards_and_join c8SingleFeats c8Preds (some 0) 9 []).1 (by decide),
   (evaluator_guards_and_join c8Feats c8Preds (some 0) 9 []).2⟩

/-- Claim C9: computing `z_close_20` is total — when the 20-day rolling
standard deviation of `close` is zero at a position, the division yields the
NaN sentinel (`none`) at that position instead of raising. -/
theorem z_close_20_zero_std_sentinel (lib : ExtLib) (closes : List ℚ) (i : ℕ)
    (h : (rollingStdO lib 20 (closes.map some)).get? i = some (some 0)) :
    (zClose20 lib closes).get? i = some none := by
  have hlen : i < closes.length := by
    by_contra hge
    push_neg at hge
    have hn : (rollingStdO lib 20 (closes.map some)).get? i = none := by
      rw [List.get?_eq_none]
      simpa [rollingStdO] using hge
    rw [hn] at h
    exact Option.noConfusion h
  have hgetd : (rollingStdO lib 20 (closes.map some))[i]?.getD none = some 0 := by
    rw [← List.get?_eq_getElem?, h]
    rfl
  simp only [zClose20]
  rw [List.get?_map, List.get?_range hlen]
  rcases hm : (rollingMeanO 20 (closes.map some))[i]?.getD none with _ | mv
  · simp [hm, hgetd]
  · simp [hm, hgetd, divNaN]

/-- Claim C9, witness: twenty identical closes give a zero rolling standard
deviation at the last position, and `z_close_20` is the NaN sentinel there. -/
theorem z_close_20_zero_std_sentinel_witness :
    (rollingStdO zeroSqrtLib 20 (c9Closes.map some)).get? 19 = some (some 0) ∧
    (zClose20 zeroSqrtLib c9Closes).get? 19 = some none :=
  ⟨by decide, z_close_20_zero_std_sentinel zeroSqrtLib c9Closes 19 (by decide)⟩

/-- Claim C10: when no ticker reaches 15 price bars, `build_features`
returns — without raising — the empty table that still carries the full
expected column schema. -/
theorem build_features_empty_schema (lib : ExtLib) (prices : List PriceBar)
    (news : List NewsItem)
    (h : ∀ t ∈ tickersOf prices, (prices.filter (fun b => b.ticker == t)).length < 15) :
    buildFeatures lib prices news = ⟨expectedCols, []⟩ := by
  have hb : featBlocks lib prices = [] := by
    rw [featBlocks, List.filterMap_eq_nil_iff]
    intro t ht
    have hcond : (sortBarsByDate (prices.filter (fun b => b.ticker == t))).length < 15 := by
      rw [length_sortBarsByDate]
      exact h t ht
    rw [if_pos hcond]
  simp [buildFeatures, hb]

/-- Claim C10, witness: three bars of a single ticker produce the empty
schema-carrying frame. -/
theorem build_features_empty_schema_witness :
    (∀ t ∈ tickersOf c10Prices, (c10Prices.filter (fun b => b.ticker == t)).length < 15) ∧
    buildFeatures trivLib c10Prices [] = ⟨expectedCols, []⟩ :=
  ⟨by decide, build_features_empty_schema trivLib c10Prices [] (by decide)⟩

end StockML
